import Mathlib

/-!
# Verification of the LeetCode profile backend (`src/main.py`)

A shallow embedding of the FastAPI backend's logic:

* `test_database` — the `/test` diagnostic endpoint (lines 24–65);
* `fetch_leetcode_user` — the profile fetch/normalize path (lines 114–181).

JSON values are modelled by the inductive type `Json`; Python dictionary
access (`dict.get`, `in`, indexing), truthiness, `or`, and numeric division
are modelled by explicit functions that return `Except PyErr _` wherever the
Python operation can raise (`AttributeError`, `TypeError`, `KeyError`,
`ZeroDivisionError`, `json.JSONDecodeError`).  An upstream HTTP interaction
is a value of type `Upstream` (transport failure, or a status code together
with an optionally-parseable body); the outcome of the handler is `Outcome`
(a normalized result, an `HTTPException`, or an uncaught Python exception
escaping the handler).  Machine floats are modelled by `ℚ`; `round(x, 2)`
is modelled by exact round-half-to-even on rationals.
-/

/-- JSON values (the shape of what `r.json()` can return). -/
inductive Json where
  | null : Json
  | bool (b : Bool) : Json
  | num (q : ℚ) : Json
  | str (s : String) : Json
  | arr (xs : List Json) : Json
  | obj (fields : List (String × Json)) : Json

/-- Python exceptions that the embedded code can raise. -/
inductive PyErr where
  | typeError : PyErr
  | attributeError : PyErr
  | keyError : PyErr
  | zeroDivisionError : PyErr
  | jsonDecodeError : PyErr
deriving DecidableEq

/-- Key lookup in a parsed JSON object.  Python's `json.loads` keeps the last
binding when a key is repeated in the source text, so the lookup scans from
the end. -/
def objLookup (fields : List (String × Json)) (k : String) : Option Json :=
  (fields.reverse.find? (fun p => p.1 == k)).map Prod.snd

/-- Python truthiness (`bool(x)`) on JSON-shaped values. -/
def pyTruthy : Json → Bool
  | .null => false
  | .bool b => b
  | .num q => decide (q ≠ 0)
  | .str s => s ≠ ""
  | .arr xs => ¬ xs.isEmpty
  | .obj fields => ¬ fields.isEmpty

/-- Python `x or y` (on JSON-shaped values): `x` if truthy, else `y`. -/
def pyOr (x y : Json) : Json := if pyTruthy x then x else y

/-- Python `d.get(k, dflt)`: only dictionaries have `.get`; anything else
raises `AttributeError`. -/
def pyGet (j : Json) (k : String) (dflt : Json) : Except PyErr Json :=
  match j with
  | .obj fields => .ok ((objLookup fields k).getD dflt)
  | _ => .error .attributeError

/-- Python `d.get(k)` (default `None`). -/
def pyGetNone (j : Json) (k : String) : Except PyErr Json :=
  pyGet j k .null

/-- Membership test of a list of characters inside another (Python
`sub in s` on strings). -/
def charsContain (s k : List Char) : Bool :=
  k.isPrefixOf s ||
    match s with
    | [] => false
    | _ :: rest => charsContain rest k

/-- Python `k in j` for a string `k`: key test on dicts, membership on
lists, substring test on strings, `TypeError` otherwise. -/
def pyContainsStr (j : Json) (k : String) : Except PyErr Bool :=
  match j with
  | .obj fields => .ok (fields.any (fun p => p.1 == k))
  | .arr xs => .ok (xs.any (fun x => match x with | .str s => s == k | _ => false))
  | .str s => .ok (charsContain s.data k.data)
  | _ => .error .typeError

/-- Python `j[k]` for a string `k`: dictionary indexing; a list or string
indexed by a string raises `TypeError`. -/
def pyIndexStr (j : Json) (k : String) : Except PyErr Json :=
  match j with
  | .obj fields =>
    match objLookup fields k with
    | some v => .ok v
    | none => .error .keyError
  | _ => .error .typeError

/-- Keys of a Python dict in iteration order: first occurrence of each key,
duplicates dropped. -/
def objKeys : List (String × Json) → List String
  | [] => []
  | (k, _) :: rest => k :: objKeys (rest.filter (fun p => p.1 ≠ k))
termination_by l => l.length
decreasing_by
  simp only [List.length_cons]
  exact Nat.lt_succ_of_le (List.length_filter_le _ _)

/-- Python `for item in j`: lists yield elements, dicts yield keys, strings
yield one-character strings, anything else raises `TypeError`. -/
def pyIter : Json → Except PyErr (List Json)
  | .arr xs => .ok xs
  | .obj fields => .ok ((objKeys fields).map Json.str)
  | .str s => .ok (s.data.map (fun c => Json.str (String.mk [c])))
  | _ => .error .typeError

/-- The numeric value of a JSON value under Python arithmetic (`bool` is a
subtype of `int`); `none` when the value does not support arithmetic. -/
def pyNum : Json → Option ℚ
  | .num q => some q
  | .bool b => some (if b then 1 else 0)
  | _ => none

/-- Python `a / b` (true division, result modelled as an exact rational). -/
def pyDiv (a b : Json) : Except PyErr ℚ :=
  match pyNum a, pyNum b with
  | some x, some y => if y = 0 then .error .zeroDivisionError else .ok (x / y)
  | _, _ => .error .typeError

/-- Canonical form of a hashable Python dict key: `None`, a string, or a
numeric value (`True`/`1`/`1.0` all hash and compare equal).  `none` for
unhashable values (lists, dicts). -/
inductive PyKey where
  | knull : PyKey
  | kstr (s : String) : PyKey
  | knum (q : ℚ) : PyKey
deriving DecidableEq

def keyCanon : Json → Option PyKey
  | .null => some .knull
  | .bool b => some (.knum (if b then 1 else 0))
  | .num q => some (.knum q)
  | .str s => some (.kstr s)
  | _ => none

/-- Python `==` between two hashable dict keys. -/
def pyKeyEq (a b : Json) : Bool :=
  match keyCanon a, keyCanon b with
  | some x, some y => x == y
  | _, _ => false

/-- Assignment `d[k] = v` on a Python dict represented as an association
list: an existing equal key keeps its position (and original key object) and
gets the new value; a fresh key is appended. -/
def dictInsert (d : List (Json × Json)) (k v : Json) : List (Json × Json) :=
  if d.any (fun p => pyKeyEq p.1 k) then
    d.map (fun p => if pyKeyEq p.1 k then (p.1, v) else p)
  else
    d ++ [(k, v)]

/-- Lookup `d.get(k, dflt)` on a dict built by `dictInsert`. -/
def mapGet (d : List (Json × Json)) (k dflt : Json) : Json :=
  ((d.find? (fun p => pyKeyEq p.1 k)).map Prod.snd).getD dflt

/-! ## The profile fetcher (`fetch_leetcode_user`, `src/main.py` 114–181) -/

/-- One step of the dict comprehension in `by_diff` (line 144):
`item.get("difficulty", "All")` needs `item` to be a dict, and the resulting
key must be hashable. -/
def by_diff_step (d : List (Json × Json)) (item : Json) :
    Except PyErr (List (Json × Json)) := do
  let key ← pyGet item "difficulty" (Json.str "All")
  match keyCanon key with
  | none => .error .typeError
  | some _ => pure (dictInsert d key item)

/-- Function `by_diff` (lines 143–144): the dict comprehension keyed by each
entry's `difficulty` field. -/
def by_diff (lst : Json) : Except PyErr (List (Json × Json)) := do
  let items ← pyIter lst
  items.foldlM by_diff_step []

/-- The comprehension key of one submission-count entry: the value of its
`difficulty` field, defaulting to `"All"`; `none` when the entry is not an
object. -/
def itemKey (item : Json) : Option Json :=
  match item with
  | .obj fs => some ((objLookup fs "difficulty").getD (.str "All"))
  | _ => none

/-- The last entry of `items` whose comprehension key equals `k` (Python
key equality). -/
def lastWithKey (items : List Json) (k : Json) : Option Json :=
  items.reverse.find? (fun it =>
    match itemKey it with
    | some k2 => pyKeyEq k2 k
    | none => false)

/-- Round half to even (Python's `round` to an integer) on an exact
rational. -/
def roundHalfEven (q : ℚ) : ℤ :=
  if q - ⌊q⌋ < 1/2 then ⌊q⌋
  else if 1/2 < q - ⌊q⌋ then ⌊q⌋ + 1
  else if ⌊q⌋ % 2 = 0 then ⌊q⌋ else ⌊q⌋ + 1

/-- Python `round(x, 2)` modelled exactly on rationals. -/
def round2 (q : ℚ) : ℚ := (roundHalfEven (q * 100) : ℚ) / 100

/-- One per-difficulty stats record (the dict built at lines 155–160). -/
structure Bucket where
  solved : Json
  total : Json
  acceptanceRate : ℚ
  submissions : Json

/-- Line 154: `acceptance = round((ac / tot * 100), 2) if tot else 0.0`. -/
def acceptanceOf (ac tot : Json) : Except PyErr ℚ :=
  if pyTruthy tot then (pyDiv ac tot).map (fun q => round2 (q * 100))
  else pure (0 : ℚ)

/-- One iteration of the stats loop (lines 150–160) for a difficulty name
`diff`: `ac = ac_map.get(diff, {}).get("count", 0)`, etc. -/
def bucketFor (ac_map total_map : List (Json × Json)) (diff : String) :
    Except PyErr Bucket := do
  let ac ← pyGet (mapGet ac_map (Json.str diff) (Json.obj [])) "count" (Json.num 0)
  let tot ← pyGet (mapGet total_map (Json.str diff) (Json.obj [])) "count" (Json.num 0)
  let subs ← pyGet (mapGet total_map (Json.str diff) (Json.obj [])) "submissions" (Json.num 0)
  let acceptance ← acceptanceOf ac tot
  pure ⟨ac, tot, acceptance, subs⟩

/-- The loop `for diff in ["All", "Easy", "Medium", "Hard"]` (lines
149–160), unrolled over its fixed literal list; the keys are
`diff.lower()`. -/
def buildStats (ac_map total_map : List (Json × Json)) :
    Except PyErr (List (String × Bucket)) := do
  let bAll ← bucketFor ac_map total_map "All"
  let bEasy ← bucketFor ac_map total_map "Easy"
  let bMedium ← bucketFor ac_map total_map "Medium"
  let bHard ← bucketFor ac_map total_map "Hard"
  pure [("all", bAll), ("easy", bEasy), ("medium", bMedium), ("hard", bHard)]

/-- The normalized response dict (lines 162–179). -/
structure NormalizedResult where
  username : Json
  name : Json
  avatar : Json
  ranking : Json
  reputation : Json
  starRating : Json
  about : Json
  company : Json
  jobTitle : Json
  school : Json
  country : Json
  websites : Json
  skills : Json
  badges : Json
  stats : List (String × Bucket)
  contest : Json

/-- The `result = { ... }` dict literal (lines 162–179), with the field
expressions evaluated in source order. -/
def shapeResult (matched profile contest : Json) (stats : List (String × Bucket)) :
    Except PyErr NormalizedResult := do
  let uname ← pyGetNone matched "username"
  let realName ← pyGetNone profile "realName"
  let uname2 ← pyGetNone matched "username"
  let avatar ← pyGetNone profile "userAvatar"
  let ranking ← pyGetNone profile "ranking"
  let reputation ← pyGetNone profile "reputation"
  let starRating ← pyGetNone profile "starRating"
  let about ← pyGetNone profile "aboutMe"
  let company ← pyGetNone profile "company"
  let jobTitle ← pyGetNone profile "jobTitle"
  let school ← pyGetNone profile "school"
  let country ← pyGetNone profile "countryName"
  let websites ← pyGetNone profile "websites"
  let skills ← pyGetNone profile "skillTags"
  let badges ← pyGetNone matched "badges"
  pure
    { username := uname
      name := pyOr realName uname2
      avatar := avatar
      ranking := ranking
      reputation := reputation
      starRating := starRating
      about := about
      company := company
      jobTitle := jobTitle
      school := school
      country := country
      websites := pyOr websites (Json.arr [])
      skills := pyOr skills (Json.arr [])
      badges := pyOr badges (Json.arr [])
      stats := stats
      contest := pyOr contest Json.null }

/-- The outcome of a call of `fetch_leetcode_user`: a normalized result, a
raised `HTTPException(status_code, detail)`, or an uncaught Python exception
escaping the function (which FastAPI turns into a 500 response). -/
inductive Outcome where
  | ok (r : NormalizedResult) : Outcome
  | httpError (status : Nat) (detail : String) : Outcome
  | uncaught (e : PyErr) : Outcome

/-- The right operand of the short-circuiting `and` at line 127:
`data["errors"]` is only evaluated when `"errors" in data` held; otherwise
the test falls through on the falsy `None`. -/
def errorsValue (data : Json) (hasErr : Bool) : Except PyErr Json :=
  if hasErr then pyIndexStr data "errors" else pure Json.null

/-- The body-processing part of `fetch_leetcode_user` (lines 126–181), from
`data = r.json()` on, for an already-parsed body `data`.  An `.error` is an
uncaught Python exception. -/
def processBodyE (data : Json) : Except PyErr Outcome := do
  -- line 127: if "errors" in data and data["errors"]:
  let hasErr ← pyContainsStr data "errors"
  let errVal ← errorsValue data hasErr
  if pyTruthy errVal then
    pure (Outcome.httpError 404 "User not found or LeetCode error")
  else do
    -- lines 130–132
    let dataField ← pyGet data "data" (Json.obj [])
    let matched ← pyGetNone dataField "matchedUser"
    if pyTruthy matched = false then
      pure (Outcome.httpError 404 "User not found")
    else do
      -- line 134
      let dataField2 ← pyGet data "data" (Json.obj [])
      let contest ← pyGetNone dataField2 "userContestRanking"
      -- line 137
      let profile ← pyGet matched "profile" (Json.obj [])
      -- lines 140–141
      let ssgA ← pyGet matched "submitStatsGlobal" (Json.obj [])
      let ac_list ← pyGet ssgA "acSubmissionNum" (Json.arr [])
      let ssgT ← pyGet matched "submitStatsGlobal" (Json.obj [])
      let total_list ← pyGet ssgT "totalSubmissionNum" (Json.arr [])
      -- lines 146–147
      let ac_map ← by_diff ac_list
      let total_map ← by_diff total_list
      -- lines 149–160
      let stats ← buildStats ac_map total_map
      -- lines 162–181
      let result ← shapeResult matched profile contest stats
      pure (Outcome.ok result)

/-- An upstream HTTP interaction: a transport-level failure (raised
`requests.RequestException`), or a response with a status code and a body
that either parses as JSON or does not (`none`). -/
inductive Upstream where
  | transportError (msg : String) : Upstream
  | response (status : Nat) (body : Option Json) : Upstream

/-- Function `fetch_leetcode_user` (lines 114–181) as a function of the upstream
interaction.  Note that `r.json()` (line 126) sits outside the
`try`/`except` of lines 118–121, so an unparseable body raises an uncaught
`JSONDecodeError`. -/
def fetch_leetcode_user (resp : Upstream) : Outcome :=
  match resp with
  | .transportError msg =>
    .httpError 502 ("Failed to reach LeetCode: " ++ msg)
  | .response status body =>
    if status ≠ 200 then
      .httpError 502 ("LeetCode API error: HTTP " ++ toString status)
    else
      match body with
      | none => .uncaught .jsonDecodeError
      | some data =>
        match processBodyE data with
        | .ok outcome => outcome
        | .error e => .uncaught e

/-! ## The `/test` diagnostic endpoint (`test_database`, lines 24–65) -/

/-- The optionally importable database handle: `db.name` exists when the
handle has a `name` attribute; the connectivity check either returns the
collection names or raises. -/
structure Db where
  dbName : Option String
  listCollectionNames : Except String (List String)

/-- The possible results of `from database import db` (line 38). -/
inductive ImportResult where
  | importError : ImportResult
  | otherError (msg : String) : ImportResult
  | imported (db : Option Db) : ImportResult

/-- The state of the world the `/test` endpoint observes: the import
outcome and the two environment variables. -/
structure ProbeEnv where
  imp : ImportResult
  databaseUrl : Option String
  databaseName : Option String

/-- The response body of `/test` (lines 27–34). -/
structure TestResponse where
  backend : String
  database : String
  database_url : Option String
  database_name : Option String
  connection_status : String
  collections : List String

/-- Handler `test_database` (lines 24–65).  The return type is `Except String _` so
that an exception escaping the handler would be visible as an `.error`; the
`try`/`except` blocks of the source are translated as the matches below. -/
def test_database (env : ProbeEnv) : Except String TestResponse :=
  let response : TestResponse :=
    { backend := "✅ Running"
      database := "❌ Not Available"
      database_url := none
      database_name := none
      connection_status := "Not Connected"
      collections := [] }
  let response :=
    match env.imp with
    | .importError =>
      { response with database := "❌ Database module not found (run enable-database first)" }
    | .otherError msg =>
      { response with database := "❌ Error: " ++ (msg.take 50) }
    | .imported dbOpt =>
      match dbOpt with
      | none => { response with database := "⚠️  Available but not initialized" }
      | some db =>
        let response :=
          { response with
              database := "✅ Available"
              database_url := some "✅ Configured"
              database_name := some (db.dbName.getD "✅ Connected")
              connection_status := "Connected" }
        match db.listCollectionNames with
        | .ok collections =>
          { response with
              collections := collections.take 10
              database := "✅ Connected & Working" }
        | .error e =>
          { response with database := "⚠️  Connected but Error: " ++ (e.take 50) }
  -- lines 62–63: the environment checks run after (and overwrite) the above
  let response :=
    { response with
        database_url := some (if (env.databaseUrl.getD "") ≠ "" then "✅ Set" else "❌ Not Set") }
  let response :=
    { response with
        database_name := some (if (env.databaseName.getD "") ≠ "" then "✅ Set" else "❌ Not Set") }
  .ok response

/-! ## Concrete inputs used by counterexamples and witnesses -/

/-- A body with a populated errors array. -/
def c1Body : Json := .obj [("errors", .arr [.obj [("message", .str "user does not exist")]])]

def zeroBucket : Bucket := ⟨Json.num 0, Json.num 0, 0, Json.num 0⟩

def c3resp : Upstream := .response 200 (some (.obj
  [("data", .obj [("matchedUser", .obj [("username", .str "alice")])])]))

def c3result : NormalizedResult :=
  { username := .str "alice", name := .str "alice", avatar := .null,
    ranking := .null, reputation := .null, starRating := .null, about := .null,
    company := .null, jobTitle := .null, school := .null, country := .null,
    websites := .arr [], skills := .arr [], badges := .arr [],
    stats := [("all", zeroBucket), ("easy", zeroBucket),
              ("medium", zeroBucket), ("hard", zeroBucket)],
    contest := .null }

def c4resp : Upstream := .response 200 (some (.obj
  [("data", .obj [("matchedUser", .obj
    [("username", .str "alice"),
     ("submitStatsGlobal", .obj
       [("acSubmissionNum", .arr
          [.obj [("difficulty", .str "Easy"), ("count", .num 10)]]),
        ("totalSubmissionNum", .arr
          [.obj [("difficulty", .str "Easy"), ("count", .num 20),
                 ("submissions", .num 25)]])])])])]))

def easyBucket : Bucket :=
  ⟨Json.num 10, Json.num 20, round2 (10 / 20 * 100), Json.num 25⟩

def c4result : NormalizedResult :=
  { username := .str "alice", name := .str "alice", avatar := .null,
    ranking := .null, reputation := .null, starRating := .null, about := .null,
    company := .null, jobTitle := .null, school := .null, country := .null,
    websites := .arr [], skills := .arr [], badges := .arr [],
    stats := [("all", zeroBucket), ("easy", easyBucket),
              ("medium", zeroBucket), ("hard", zeroBucket)],
    contest := .null }

def c6item1 : Json := .obj [("difficulty", .str "Easy"), ("count", .num 1)]
def c6item2 : Json := .obj [("difficulty", .str "Easy"), ("count", .num 2)]

def c7resp : Upstream := .response 200 (some (.obj
  [("data", .obj [("matchedUser", .obj
    [("username", .str "alice"), ("profile", .obj [])])])]))

def c7result : NormalizedResult :=
  { username := .str "alice", name := .str "alice", avatar := .null,
    ranking := .null, reputation := .null, starRating := .null, about := .null,
    company := .null, jobTitle := .null, school := .null, country := .null,
    websites := .arr [], skills := .arr [], badges := .arr [],
    stats := [("all", zeroBucket), ("easy", zeroBucket),
              ("medium", zeroBucket), ("hard", zeroBucket)],
    contest := .null }

def c8resp : Upstream := .response 200 (some (.obj
  [("data", .obj [("matchedUser", .obj
    [("username", .str "bob"),
     ("profile", .obj [("realName", .str "Bob")])])])]))

def c8result : NormalizedResult :=
  { username := .str "bob", name := .str "Bob", avatar := .null,
    ranking := .null, reputation := .null, starRating := .null, about := .null,
    company := .null, jobTitle := .null, school := .null, country := .null,
    websites := .arr [], skills := .arr [], badges := .arr [],
    stats := [("all", zeroBucket), ("easy", zeroBucket),
              ("medium", zeroBucket), ("hard", zeroBucket)],
    contest := .null }

def c10resp : Upstream := .response 200 (some (.obj
  [("data", .obj [("matchedUser", .obj
    [("username", .str "carol"),
     ("submitStatsGlobal", .obj
       [("acSubmissionNum", .arr
          [.obj [("difficulty", .str "Weird"), ("count", .num 3)]]),
        ("totalSubmissionNum", .arr [])])])])]))

def c10result : NormalizedResult :=
  { username := .str "carol", name := .str "carol", avatar := .null,
    ranking := .null, reputation := .null, starRating := .null, about := .null,
    company := .null, jobTitle := .null, school := .null, country := .null,
    websites := .arr [], skills := .arr [], badges := .arr [],
    stats := [("all", zeroBucket), ("easy", zeroBucket),
              ("medium", zeroBucket), ("hard", zeroBucket)],
    contest := .null }

def c9env : ProbeEnv := ⟨.importError, none, none⟩


/-! # Theorems -/


/-! ## Infrastructure lemmas -/

theorem ebind_ok {α β : Type} {x : Except PyErr α} {f : α → Except PyErr β} {b : β}
    (h : (x >>= f) = Except.ok b) : ∃ a, x = Except.ok a ∧ f a = Except.ok b := by
  cases x with
  | error e => exact Except.noConfusion (show Except.error e = Except.ok b from h)
  | ok a => exact ⟨a, rfl, h⟩

theorem objLookup_some_any {fs : List (String × Json)} {k : String} {v : Json}
    (h : objLookup fs k = some v) : fs.any (fun p => p.1 == k) = true := by
  unfold objLookup at h
  rcases Option.map_eq_some'.mp h with ⟨p, hp, hv⟩
  have hmem : p ∈ fs.reverse := List.mem_of_find?_eq_some hp
  have hpk := List.find?_some hp
  exact List.any_eq_true.mpr ⟨p, List.mem_reverse.mp hmem, hpk⟩

theorem objLookup_none_any {fs : List (String × Json)} {k : String}
    (h : objLookup fs k = none) : fs.any (fun p => p.1 == k) = false := by
  unfold objLookup at h
  rw [Option.map_eq_none'] at h
  rw [List.find?_eq_none] at h
  by_contra hc
  rw [Bool.not_eq_false, List.any_eq_true] at hc
  rcases hc with ⟨p, hmem, hpk⟩
  exact absurd hpk (by simpa using h p (List.mem_reverse.mpr hmem))

/-- Unfolding `fetch_leetcode_user` on a 200 response with a parsed body. -/
theorem fetch200 (data : Json) :
    fetch_leetcode_user (.response 200 (some data)) =
      (match processBodyE data with
       | .ok outcome => outcome
       | .error e => Outcome.uncaught e) := rfl

theorem fetch_ok_inv {resp : Upstream} {r : NormalizedResult}
    (h : fetch_leetcode_user resp = .ok r) :
    ∃ data, resp = .response 200 (some data) ∧ processBodyE data = .ok (.ok r) := by
  cases resp with
  | transportError msg => exact Outcome.noConfusion h
  | response status body =>
    simp only [fetch_leetcode_user] at h
    by_cases hs : status = 200
    · subst hs
      simp only [ne_eq, not_true_eq_false, if_false] at h
      cases body with
      | none => exact Outcome.noConfusion h
      | some data =>
        refine ⟨data, rfl, ?_⟩
        have h' : (match processBodyE data with
            | Except.ok outcome => outcome
            | Except.error e => Outcome.uncaught e) = Outcome.ok r := h
        cases hp : processBodyE data with
        | error e => rw [hp] at h'; exact Outcome.noConfusion h'
        | ok outcome => rw [hp] at h'; simp only at h'; rw [h']
    · rw [if_pos hs] at h
      exact Outcome.noConfusion h

/-- C2 (code bug evaluation): on a 200 response whose body is not parseable
JSON, `fetch_leetcode_user` does not fail with a 502 `GatewayUnavailable`
`HTTPException`; the `JSONDecodeError` raised by `r.json()` at line 126
escapes the handler uncaught (line 126 sits outside the `try` of lines
118–121), contradicting the claim that a malformed body is treated as a
transport failure. -/
theorem C2_eval :
    fetch_leetcode_user (.response 200 none) = .uncaught .jsonDecodeError := rfl

/-- C1 counterexample: an upstream response with HTTP status 500 whose body
contains a non-empty errors array is reported as a 502 gateway error, not as
the 404 `ProfileNotFound` the claim requires "regardless of the HTTP status
code" — the status check at line 123 runs before the body is parsed. -/
theorem C1_counterexample :
    fetch_leetcode_user (.response 500 (some c1Body)) =
      .httpError 502 "LeetCode API error: HTTP 500" := rfl

/-- C5 counterexample: a 200 response with body containing a null data
field (so `matchedUser` is absent) does not produce the 404
`ProfileNotFound` the claim requires: `data.get("data", {}).get(...)` at
line 130 calls `.get` on `None` and an `AttributeError` escapes uncaught. -/
theorem C5_counterexample :
    fetch_leetcode_user (.response 200 (some (.obj [("data", Json.null)]))) =
      .uncaught .attributeError := rfl

/-- C9: the `/test` diagnostic endpoint never raises an error to the
caller: for every database state (module absent, import failing, handle
null, connectivity check throwing, environment variables unset or empty) it
returns a success response, the backend field reads as running, and at most
the first ten collection names are reported. -/
theorem C9_test_never_fails (env : ProbeEnv) :
    ∃ resp, test_database env = .ok resp ∧
      resp.backend = "✅ Running" ∧ resp.collections.length ≤ 10 := by
  obtain ⟨imp, du, dn⟩ := env
  cases imp with
  | importError => exact ⟨_, rfl, rfl, by simp⟩
  | otherError msg => exact ⟨_, rfl, rfl, by simp⟩
  | imported dbOpt =>
    cases dbOpt with
    | none => exact ⟨_, rfl, rfl, by simp⟩
    | some db =>
      obtain ⟨dbName, lcn⟩ := db
      cases lcn with
      | ok cols => exact ⟨_, rfl, rfl, List.length_take_le 10 cols⟩
      | error e => exact ⟨_, rfl, rfl, by simp⟩

/-- C1 (amended): for every upstream response with HTTP status 200 whose
body parses to a JSON object containing a non-empty errors array,
`fetch_leetcode_user` fails with the 404 `ProfileNotFound`
`HTTPException`. -/
theorem C1_amended (fs : List (String × Json)) (x : Json) (xs : List Json)
    (herr : objLookup fs "errors" = some (.arr (x :: xs))) :
    fetch_leetcode_user (.response 200 (some (.obj fs))) =
      .httpError 404 "User not found or LeetCode error" := by
  have hany := objLookup_some_any herr
  rw [fetch200]
  have hpb : processBodyE (.obj fs) =
      .ok (.httpError 404 "User not found or LeetCode error") := by
    unfold processBodyE
    simp only [pyContainsStr, hany, errorsValue, pyIndexStr, herr]
    simp [Bind.bind, Except.bind, pure, Except.pure, pyTruthy]
  rw [hpb]

theorem objLookup_nil (k : String) : objLookup [] k = none := rfl

/-- C5 (amended): for every 200 response with a parseable JSON-object body
containing no errors, if the data field is absent, or is an object whose
matchedUser field is null or absent, then `fetch_leetcode_user` fails with
the 404 `ProfileNotFound` `HTTPException`. -/
theorem C5_amended (fs : List (String × Json))
    (herr : objLookup fs "errors" = none ∨ objLookup fs "errors" = some (.arr []))
    (hdata : objLookup fs "data" = none ∨
      ∃ dfs, objLookup fs "data" = some (.obj dfs) ∧
        (objLookup dfs "matchedUser" = none ∨ objLookup dfs "matchedUser" = some .null)) :
    fetch_leetcode_user (.response 200 (some (.obj fs))) =
      .httpError 404 "User not found" := by
  rw [fetch200]
  have hpb : processBodyE (.obj fs) = .ok (.httpError 404 "User not found") := by
    unfold processBodyE
    rcases herr with h | h
    · have hany := objLookup_none_any h
      rcases hdata with hd | ⟨dfs, hd, hmu⟩
      · simp [pyContainsStr, hany, errorsValue, pyGet, pyGetNone, hd, objLookup_nil, pyTruthy,
          Bind.bind, Except.bind, pure, Except.pure]
      · rcases hmu with hm | hm <;>
          simp [pyContainsStr, hany, errorsValue, pyGet, pyGetNone, hd, hm, pyTruthy,
            Bind.bind, Except.bind, pure, Except.pure]
    · have hany := objLookup_some_any h
      rcases hdata with hd | ⟨dfs, hd, hmu⟩
      · simp [pyContainsStr, hany, errorsValue, pyIndexStr, h, pyGet, pyGetNone, hd, objLookup_nil,
          pyTruthy, Bind.bind, Except.bind, pure, Except.pure]
      · rcases hmu with hm | hm <;>
          simp [pyContainsStr, hany, errorsValue, pyIndexStr, h, pyGet, pyGetNone, hd, hm,
            pyTruthy, Bind.bind, Except.bind, pure, Except.pure]
  rw [hpb]

/-! ## shapeResult lemmas -/

theorem shapeResult_obj (mfs pfs : List (String × Json)) (contest : Json)
    (stats : List (String × Bucket)) :
    shapeResult (.obj mfs) (.obj pfs) contest stats = .ok
      { username := (objLookup mfs "username").getD .null
        name := pyOr ((objLookup pfs "realName").getD .null)
          ((objLookup mfs "username").getD .null)
        avatar := (objLookup pfs "userAvatar").getD .null
        ranking := (objLookup pfs "ranking").getD .null
        reputation := (objLookup pfs "reputation").getD .null
        starRating := (objLookup pfs "starRating").getD .null
        about := (objLookup pfs "aboutMe").getD .null
        company := (objLookup pfs "company").getD .null
        jobTitle := (objLookup pfs "jobTitle").getD .null
        school := (objLookup pfs "school").getD .null
        country := (objLookup pfs "countryName").getD .null
        websites := pyOr ((objLookup pfs "websites").getD .null) (Json.arr [])
        skills := pyOr ((objLookup pfs "skillTags").getD .null) (Json.arr [])
        badges := pyOr ((objLookup mfs "badges").getD .null) (Json.arr [])
        stats := stats
        contest := pyOr contest Json.null } := rfl

theorem shapeResult_ok_stats {m p c : Json} {st : List (String × Bucket)}
    {r : NormalizedResult} (h : shapeResult m p c st = .ok r) : r.stats = st := by
  cases m with
  | obj mfs =>
    cases p with
    | obj pfs =>
      rw [shapeResult_obj] at h
      injection h with h
      rw [← h]
    | null => exact Except.noConfusion h
    | bool b => exact Except.noConfusion h
    | num q => exact Except.noConfusion h
    | str s => exact Except.noConfusion h
    | arr xs => exact Except.noConfusion h
  | null => exact Except.noConfusion h
  | bool b => exact Except.noConfusion h
  | num q => exact Except.noConfusion h
  | str s => exact Except.noConfusion h
  | arr xs => exact Except.noConfusion h

/-! ## Success inversion for the body-processing pipeline -/

theorem processBodyE_ok_inv {data : Json} {r : NormalizedResult}
    (h : processBodyE data = .ok (.ok r)) :
    ∃ dataField matched dataField2 contest profile ac_map total_map,
      pyGet data "data" (Json.obj []) = .ok dataField ∧
      pyGetNone dataField "matchedUser" = .ok matched ∧
      pyTruthy matched = true ∧
      pyGet data "data" (Json.obj []) = .ok dataField2 ∧
      pyGetNone dataField2 "userContestRanking" = .ok contest ∧
      pyGet matched "profile" (Json.obj []) = .ok profile ∧
      buildStats ac_map total_map = .ok r.stats ∧
      shapeResult matched profile contest r.stats = .ok r := by
  unfold processBodyE at h
  obtain ⟨hasErr, h1, h⟩ := ebind_ok h
  obtain ⟨errVal, h2, h⟩ := ebind_ok h
  by_cases ht : pyTruthy errVal
  · rw [if_pos ht] at h
    injection h with h
    exact Outcome.noConfusion h
  · rw [if_neg ht] at h
    obtain ⟨dataField, h3, h⟩ := ebind_ok h
    obtain ⟨matched, h4, h⟩ := ebind_ok h
    by_cases hm : pyTruthy matched = false
    · rw [if_pos hm] at h
      injection h with h
      exact Outcome.noConfusion h
    · rw [if_neg hm] at h
      have hmt : pyTruthy matched = true := by
        revert hm; cases pyTruthy matched <;> simp
      obtain ⟨dataField2, h5, h⟩ := ebind_ok h
      obtain ⟨contest, h6, h⟩ := ebind_ok h
      obtain ⟨profile, h7, h⟩ := ebind_ok h
      obtain ⟨ssgA, h8, h⟩ := ebind_ok h
      obtain ⟨ac_list, h9, h⟩ := ebind_ok h
      obtain ⟨ssgT, h10, h⟩ := ebind_ok h
      obtain ⟨total_list, h11, h⟩ := ebind_ok h
      obtain ⟨ac_map, h12, h⟩ := ebind_ok h
      obtain ⟨total_map, h13, h⟩ := ebind_ok h
      obtain ⟨stats, h14, h⟩ := ebind_ok h
      obtain ⟨result, h15, h⟩ := ebind_ok h
      injection h with h
      injection h with h
      rw [h] at h15
      have hst : r.stats = stats := shapeResult_ok_stats h15
      rw [← hst] at h14 h15
      exact ⟨dataField, matched, dataField2, contest, profile, ac_map, total_map,
        h3, h4, hmt, h5, h6, h7, h14, h15⟩

theorem buildStats_ok_inv {ac_map total_map : List (Json × Json)}
    {s : List (String × Bucket)} (h : buildStats ac_map total_map = .ok s) :
    ∃ b1 b2 b3 b4,
      bucketFor ac_map total_map "All" = .ok b1 ∧
      bucketFor ac_map total_map "Easy" = .ok b2 ∧
      bucketFor ac_map total_map "Medium" = .ok b3 ∧
      bucketFor ac_map total_map "Hard" = .ok b4 ∧
      s = [("all", b1), ("easy", b2), ("medium", b3), ("hard", b4)] := by
  unfold buildStats at h
  obtain ⟨b1, h1, h⟩ := ebind_ok h
  obtain ⟨b2, h2, h⟩ := ebind_ok h
  obtain ⟨b3, h3, h⟩ := ebind_ok h
  obtain ⟨b4, h4, h⟩ := ebind_ok h
  injection h with h
  exact ⟨b1, b2, b3, b4, h1, h2, h3, h4, h.symm⟩

/-- C10: for every successful call of `fetch_leetcode_user`, the stats
field of the result is a mapping containing exactly the four keys "all",
"easy", "medium", "hard" in that insertion order (each value being a
`Bucket` record with exactly the fields solved, total, acceptanceRate,
submissions), regardless of which difficulty names appear upstream. -/
theorem C10_stats_keys (resp : Upstream) (r : NormalizedResult)
    (h : fetch_leetcode_user resp = .ok r) :
    r.stats.map Prod.fst = ["all", "easy", "medium", "hard"] := by
  obtain ⟨data, -, hpb⟩ := fetch_ok_inv h
  obtain ⟨_, _, _, _, _, am, tm, _, _, _, _, _, _, hbs, -⟩ := processBodyE_ok_inv hpb
  obtain ⟨b1, b2, b3, b4, -, -, -, -, hs⟩ := buildStats_ok_inv hbs
  rw [hs]
  rfl

/-! ## Error-shape lemmas for the stats computation -/

theorem ebind_err {α β : Type} {x : Except PyErr α} {f : α → Except PyErr β} {e : PyErr}
    (h : (x >>= f) = Except.error e) :
    x = Except.error e ∨ ∃ a, x = Except.ok a ∧ f a = Except.error e := by
  cases x with
  | error e' =>
    left
    simpa [Bind.bind, Except.bind] using h
  | ok a => exact Or.inr ⟨a, rfl, h⟩

theorem pyGet_error {j : Json} {k : String} {d : Json} {e : PyErr}
    (h : pyGet j k d = .error e) : e = .attributeError := by
  cases j with
  | obj fs => exact Except.noConfusion h
  | null => injection h with h; exact h.symm
  | bool b => injection h with h; exact h.symm
  | num q => injection h with h; exact h.symm
  | str s => injection h with h; exact h.symm
  | arr xs => injection h with h; exact h.symm

theorem pyDiv_ne_zeroDiv {a b : Json} (hb : pyTruthy b = true) :
    pyDiv a b ≠ .error .zeroDivisionError := by
  intro h
  cases b with
  | null => exact Bool.noConfusion hb
  | bool bb =>
    cases bb with
    | false => exact Bool.noConfusion hb
    | true => cases a <;> simp [pyDiv, pyNum] at h
  | num q =>
    have hq : q ≠ 0 := by simpa [pyTruthy] using hb
    cases a <;> simp [pyDiv, pyNum, hq] at h
  | str s => cases a <;> simp [pyDiv, pyNum] at h
  | arr xs => cases a <;> simp [pyDiv, pyNum] at h
  | obj fs => cases a <;> simp [pyDiv, pyNum] at h

theorem except_map_error {α β : Type} {f : α → β} {x : Except PyErr α} {e : PyErr}
    (h : Except.map f x = Except.error e) : x = Except.error e := by
  cases x with
  | error e' => injection h with h; rw [h]
  | ok a => exact Except.noConfusion h

theorem bucketFor_no_zeroDiv (am tm : List (Json × Json)) (d : String) :
    bucketFor am tm d ≠ .error .zeroDivisionError := by
  intro h
  unfold bucketFor at h
  rcases ebind_err h with h | ⟨ac, hac, h⟩
  · exact absurd (pyGet_error h) (by simp)
  rcases ebind_err h with h | ⟨tot, htot, h⟩
  · exact absurd (pyGet_error h) (by simp)
  rcases ebind_err h with h | ⟨subs, hsubs, h⟩
  · exact absurd (pyGet_error h) (by simp)
  rcases ebind_err h with h | ⟨accept, hacc, h⟩
  · unfold acceptanceOf at h
    by_cases htr : pyTruthy tot
    · rw [if_pos htr] at h
      exact pyDiv_ne_zeroDiv htr (except_map_error h)
    · rw [if_neg htr] at h
      exact Except.noConfusion h
  · exact Except.noConfusion h

theorem bucketFor_ok {am tm : List (Json × Json)} {d : String} {b : Bucket}
    (h : bucketFor am tm d = .ok b) :
    (b.total = Json.num 0 → b.acceptanceRate = 0) ∧
    (∀ a t : ℚ, b.solved = .num a → b.total = .num t → t ≠ 0 →
      b.acceptanceRate = round2 (a / t * 100)) := by
  unfold bucketFor at h
  obtain ⟨ac, hac, h⟩ := ebind_ok h
  obtain ⟨tot, htot, h⟩ := ebind_ok h
  obtain ⟨subs, hsubs, h⟩ := ebind_ok h
  obtain ⟨accept, hacc, h⟩ := ebind_ok h
  injection h with h
  constructor
  · intro h0
    have htot0 : tot = Json.num 0 := by rw [← h] at h0; exact h0
    rw [htot0] at hacc
    unfold acceptanceOf at hacc
    have : pyTruthy (Json.num 0) = false := by simp [pyTruthy]
    rw [this] at hacc
    simp only [Bool.false_eq_true, if_false] at hacc
    injection hacc with hacc
    rw [← h]
    exact hacc.symm
  · intro a t hsa hta htne
    have hac' : ac = Json.num a := by rw [← h] at hsa; exact hsa
    have htot' : tot = Json.num t := by rw [← h] at hta; exact hta
    rw [hac', htot'] at hacc
    unfold acceptanceOf at hacc
    have htr : pyTruthy (Json.num t) = true := by simp [pyTruthy, htne]
    rw [htr] at hacc
    simp only [if_true] at hacc
    simp only [pyDiv, pyNum, if_neg htne, Except.map] at hacc
    injection hacc with hacc
    rw [← h]
    exact hacc.symm

/-! ## Bounds for round half to even -/

theorem roundHalfEven_nonneg {q : ℚ} (h : 0 ≤ q) : 0 ≤ roundHalfEven q := by
  have hf : (0 : ℤ) ≤ ⌊q⌋ := Int.floor_nonneg.mpr h
  unfold roundHalfEven
  split_ifs <;> omega

theorem roundHalfEven_le {q : ℚ} {n : ℤ} (h : q ≤ (n : ℚ)) : roundHalfEven q ≤ n := by
  have hfl : ⌊q⌋ ≤ n := by
    have := Int.floor_le_floor h
    rwa [Int.floor_intCast] at this
  have hfq : (⌊q⌋ : ℚ) ≤ q := Int.floor_le q
  unfold roundHalfEven
  split_ifs with h1 h2 h3
  · exact hfl
  · -- 1/2 < q - ⌊q⌋ : the floor is strictly below q - 1/2 ≤ n - 1/2
    have : (⌊q⌋ : ℚ) < (n : ℚ) := by linarith
    have : ⌊q⌋ < n := by exact_mod_cast this
    omega
  · exact hfl
  · -- exact half: q - ⌊q⌋ = 1/2
    have hhalf : q - (⌊q⌋ : ℚ) = 1/2 := le_antisymm (not_lt.mp h2) (not_lt.mp h1)
    have : (⌊q⌋ : ℚ) < (n : ℚ) := by linarith
    have : ⌊q⌋ < n := by exact_mod_cast this
    omega

theorem round2_bounds {q : ℚ} (h0 : 0 ≤ q) (h100 : q ≤ 100) :
    0 ≤ round2 q ∧ round2 q ≤ 100 := by
  have hlo : (0 : ℤ) ≤ roundHalfEven (q * 100) := roundHalfEven_nonneg (by linarith)
  have hhi : roundHalfEven (q * 100) ≤ (10000 : ℤ) := by
    apply roundHalfEven_le
    push_cast
    linarith
  have hlo' : (0 : ℚ) ≤ (roundHalfEven (q * 100) : ℚ) := by exact_mod_cast hlo
  have hhi' : ((roundHalfEven (q * 100) : ℚ)) ≤ 10000 := by exact_mod_cast hhi
  unfold round2
  constructor
  · positivity
  · rw [div_le_iff₀ (by norm_num : (0:ℚ) < 100)]
    linarith

/-- Any bucket of a successful result comes from `bucketFor`. -/
theorem stats_mem_bucketFor {resp : Upstream} {r : NormalizedResult}
    {k : String} {b : Bucket} (hf : fetch_leetcode_user resp = .ok r)
    (hmem : (k, b) ∈ r.stats) :
    ∃ am tm d, bucketFor am tm d = .ok b := by
  obtain ⟨data, -, hpb⟩ := fetch_ok_inv hf
  obtain ⟨_, _, _, _, _, am, tm, _, _, _, _, _, _, hbs, -⟩ := processBodyE_ok_inv hpb
  obtain ⟨b1, b2, b3, b4, hb1, hb2, hb3, hb4, hs⟩ := buildStats_ok_inv hbs
  rw [hs] at hmem
  simp only [List.mem_cons, List.mem_singleton, Prod.mk.injEq, List.not_mem_nil] at hmem
  rcases hmem with ⟨-, rfl⟩ | ⟨-, rfl⟩ | ⟨-, rfl⟩ | ⟨-, rfl⟩ | hfalse
  · exact ⟨am, tm, "All", hb1⟩
  · exact ⟨am, tm, "Easy", hb2⟩
  · exact ⟨am, tm, "Medium", hb3⟩
  · exact ⟨am, tm, "Hard", hb4⟩
  · exact absurd hfalse (by simp)

/-- C3: for every difficulty bucket in a successful `fetch_leetcode_user`
result, if the bucket's total count is 0 then its acceptanceRate is exactly
0.0; and the acceptance computation (`bucketFor`, the only division in the
program) can never raise a `ZeroDivisionError`. -/
theorem C3_zero_total (resp : Upstream) :
    (∀ r k b, fetch_leetcode_user resp = .ok r → (k, b) ∈ r.stats →
        b.total = Json.num 0 → b.acceptanceRate = 0) ∧
    (∀ am tm d, bucketFor am tm d ≠ .error .zeroDivisionError) := by
  constructor
  · intro r k b hf hmem h0
    obtain ⟨am, tm, d, hb⟩ := stats_mem_bucketFor hf hmem
    exact (bucketFor_ok hb).1 h0
  · intro am tm d
    exact bucketFor_no_zeroDiv am tm d

/-- C4: for every difficulty bucket of a successful result with numeric
solved count `a` and total count `t` with `t > 0`, the acceptanceRate
equals `round(a / t * 100, 2)` (exact round-half-to-even on rationals), and
under well-formed upstream data (`0 ≤ a ≤ t`) it lies in [0, 100]. -/
theorem C4_acceptance (resp : Upstream) (r : NormalizedResult) (k : String)
    (b : Bucket) (a t : ℚ) (hf : fetch_leetcode_user resp = .ok r)
    (hmem : (k, b) ∈ r.stats) (hsa : b.solved = .num a) (hta : b.total = .num t)
    (ht : 0 < t) :
    b.acceptanceRate = round2 (a / t * 100) ∧
    (0 ≤ a → a ≤ t → 0 ≤ b.acceptanceRate ∧ b.acceptanceRate ≤ 100) := by
  obtain ⟨am, tm, d, hb⟩ := stats_mem_bucketFor hf hmem
  have hrate := (bucketFor_ok hb).2 a t hsa hta ht.ne'
  refine ⟨hrate, fun ha hat => ?_⟩
  rw [hrate]
  apply round2_bounds
  · positivity
  · have h1 : a / t ≤ 1 := (div_le_one ht).mpr hat
    linarith

theorem fetch200_ok {data : Json} {r : NormalizedResult}
    (hf : fetch_leetcode_user (.response 200 (some data)) = .ok r) :
    processBodyE data = .ok (.ok r) := by
  obtain ⟨d2, heq, hpb⟩ := fetch_ok_inv hf
  cases heq
  exact hpb

/-- C7: for every successful upstream response whose profile object lacks
the realName field, the normalized name field equals the matched user's
username value. -/
theorem C7_name_fallback (fs dfs mfs pfs : List (String × Json)) (u : Json)
    (r : NormalizedResult)
    (hd : objLookup fs "data" = some (.obj dfs))
    (hmu : objLookup dfs "matchedUser" = some (.obj mfs))
    (hp : objLookup mfs "profile" = some (.obj pfs))
    (hrn : objLookup pfs "realName" = none)
    (hu : objLookup mfs "username" = some u)
    (hf : fetch_leetcode_user (.response 200 (some (.obj fs))) = .ok r) :
    r.name = u := by
  have hpb := fetch200_ok hf
  obtain ⟨dataField, matched, dataField2, contest, profile, am, tm,
    h3, h4, hmt, h5, h6, h7, hbs, hshape⟩ := processBodyE_ok_inv hpb
  have hdf : dataField = .obj dfs := by
    simp only [pyGet, hd, Option.getD_some, Except.ok.injEq] at h3
    exact h3.symm
  subst hdf
  have hmm : matched = .obj mfs := by
    simp only [pyGetNone, pyGet, hmu, Option.getD_some, Except.ok.injEq] at h4
    exact h4.symm
  subst hmm
  have hpp : profile = .obj pfs := by
    simp only [pyGet, hp, Option.getD_some, Except.ok.injEq] at h7
    exact h7.symm
  subst hpp
  rw [shapeResult_obj] at hshape
  injection hshape with hshape
  rw [← hshape]
  simp only [hrn, hu, Option.getD_none, Option.getD_some]
  simp [pyOr, pyTruthy]

/-- C8: for every successful upstream response in which the profile's
websites and skillTags fields are entirely absent and the matched user has
no badges field, the normalized websites, skills and badges fields are all
empty JSON arrays (present and non-null). -/
theorem C8_empty_defaults (fs dfs mfs pfs : List (String × Json))
    (r : NormalizedResult)
    (hd : objLookup fs "data" = some (.obj dfs))
    (hmu : objLookup dfs "matchedUser" = some (.obj mfs))
    (hp : objLookup mfs "profile" = some (.obj pfs))
    (hw : objLookup pfs "websites" = none)
    (hsk : objLookup pfs "skillTags" = none)
    (hb : objLookup mfs "badges" = none)
    (hf : fetch_leetcode_user (.response 200 (some (.obj fs))) = .ok r) :
    r.websites = Json.arr [] ∧ r.skills = Json.arr [] ∧ r.badges = Json.arr [] := by
  have hpb := fetch200_ok hf
  obtain ⟨dataField, matched, dataField2, contest, profile, am, tm,
    h3, h4, hmt, h5, h6, h7, hbs, hshape⟩ := processBodyE_ok_inv hpb
  have hdf : dataField = .obj dfs := by
    simp only [pyGet, hd, Option.getD_some, Except.ok.injEq] at h3
    exact h3.symm
  subst hdf
  have hmm : matched = .obj mfs := by
    simp only [pyGetNone, pyGet, hmu, Option.getD_some, Except.ok.injEq] at h4
    exact h4.symm
  subst hmm
  have hpp : profile = .obj pfs := by
    simp only [pyGet, hp, Option.getD_some, Except.ok.injEq] at h7
    exact h7.symm
  subst hpp
  rw [shapeResult_obj] at hshape
  injection hshape with hshape
  rw [← hshape]
  simp only [hw, hsk, hb, Option.getD_none]
  simp [pyOr, pyTruthy]

/-! ## Python key equality is an equivalence on hashables -/

theorem pyKeyEq_symm (a b : Json) : pyKeyEq a b = pyKeyEq b a := by
  unfold pyKeyEq
  cases ha : keyCanon a <;> cases hb : keyCanon b <;> simp [BEq.comm]

theorem pyKeyEq_trans {a b c : Json} (h1 : pyKeyEq a b = true)
    (h2 : pyKeyEq b c = true) : pyKeyEq a c = true := by
  unfold pyKeyEq at *
  cases ha : keyCanon a <;> cases hb : keyCanon b <;> cases hc : keyCanon c <;>
    simp_all [beq_iff_eq]

/-! ## mapGet / dictInsert interaction -/

theorem mapGet_nil (k dflt : Json) : mapGet [] k dflt = dflt := rfl

theorem mapGet_cons (pr : Json × Json) (d : List (Json × Json)) (k dflt : Json) :
    mapGet (pr :: d) k dflt =
      if pyKeyEq pr.1 k then pr.2 else mapGet d k dflt := by
  unfold mapGet
  by_cases hp : pyKeyEq pr.1 k
  · rw [@List.find?_cons_of_pos _ (fun q => pyKeyEq q.1 k) pr d hp, if_pos hp]
    rfl
  · rw [@List.find?_cons_of_neg _ (fun q => pyKeyEq q.1 k) pr d hp, if_neg hp]

theorem mapGet_map_subst {kk v k' : Json} (hkk : pyKeyEq kk k' = true)
    (d : List (Json × Json)) (dflt : Json) :
    mapGet (d.map (fun p => if pyKeyEq p.1 kk then (p.1, v) else p)) k' dflt =
      if d.any (fun p => pyKeyEq p.1 kk) then v else dflt := by
  induction d with
  | nil => rw [List.map_nil, List.any_nil, mapGet_nil]; rfl
  | cons p d ih =>
    rw [List.map_cons, List.any_cons]
    by_cases hp : pyKeyEq p.1 kk
    · rw [if_pos hp]
      have hp' : pyKeyEq p.1 k' = true := pyKeyEq_trans hp hkk
      rw [mapGet_cons]
      simp [hp', hp]
    · rw [if_neg hp]
      have hp' : pyKeyEq p.1 k' = false := by
        by_contra hc
        rw [Bool.not_eq_false] at hc
        have := pyKeyEq_trans hc (by rw [pyKeyEq_symm]; exact hkk)
        exact hp this
      rw [mapGet_cons]
      simp only [hp', Bool.false_eq_true, if_false, ih]
      have hpf : pyKeyEq p.1 kk = false := by rwa [Bool.not_eq_true] at hp
      rw [hpf, Bool.false_or]

theorem mapGet_map_nosubst {kk v k' : Json} (hkk : pyKeyEq kk k' = false)
    (d : List (Json × Json)) (dflt : Json) :
    mapGet (d.map (fun p => if pyKeyEq p.1 kk then (p.1, v) else p)) k' dflt =
      mapGet d k' dflt := by
  induction d with
  | nil => rfl
  | cons p d ih =>
    rw [List.map_cons]
    by_cases hp : pyKeyEq p.1 kk
    · rw [if_pos hp]
      have hp' : pyKeyEq p.1 k' = false := by
        by_contra hc
        rw [Bool.not_eq_false] at hc
        have := pyKeyEq_trans (by rw [pyKeyEq_symm]; exact hp) hc
        rw [this] at hkk
        exact Bool.noConfusion hkk
      rw [mapGet_cons, mapGet_cons]
      simp only [hp', Bool.false_eq_true, if_false, ih]
    · rw [if_neg hp]
      rw [mapGet_cons, mapGet_cons, ih]

theorem mapGet_append_single (d : List (Json × Json)) (kk v k' dflt : Json) :
    mapGet (d ++ [(kk, v)]) k' dflt =
      mapGet d k' (if pyKeyEq kk k' then v else dflt) := by
  induction d with
  | nil =>
    rw [List.nil_append, mapGet_cons, mapGet_nil, mapGet_nil]
  | cons p d ih =>
    rw [List.cons_append, mapGet_cons, mapGet_cons, ih]

theorem mapGet_no_match {d : List (Json × Json)} {kk k' : Json}
    (hany : d.any (fun p => pyKeyEq p.1 kk) = false)
    (hkk : pyKeyEq kk k' = true) (dflt : Json) :
    mapGet d k' dflt = dflt := by
  induction d with
  | nil => rfl
  | cons p d ih =>
    rw [List.any_cons] at hany
    have hp : pyKeyEq p.1 kk = false := by
      by_contra hc
      rw [Bool.not_eq_false] at hc
      rw [hc] at hany
      exact Bool.noConfusion hany
    have hrest : d.any (fun p => pyKeyEq p.1 kk) = false := by
      by_contra hc
      rw [Bool.not_eq_false] at hc
      rw [hc] at hany
      simp at hany
    have hp' : pyKeyEq p.1 k' = false := by
      by_contra hc
      rw [Bool.not_eq_false] at hc
      have := pyKeyEq_trans hc (by rw [pyKeyEq_symm]; exact hkk)
      rw [this] at hp
      exact Bool.noConfusion hp
    rw [mapGet_cons]
    simp only [hp', Bool.false_eq_true, if_false]
    exact ih hrest

theorem mapGet_dictInsert (d : List (Json × Json)) (kk v k' dflt : Json) :
    mapGet (dictInsert d kk v) k' dflt =
      if pyKeyEq kk k' then v else mapGet d k' dflt := by
  unfold dictInsert
  by_cases hany : d.any (fun p => pyKeyEq p.1 kk)
  · rw [if_pos hany]
    by_cases hkk : pyKeyEq kk k'
    · rw [mapGet_map_subst hkk, if_pos hany, if_pos hkk]
    · rw [mapGet_map_nosubst (Bool.not_eq_true _ ▸ hkk : pyKeyEq kk k' = false),
        if_neg hkk]
  · rw [if_neg hany]
    rw [mapGet_append_single]
    by_cases hkk : pyKeyEq kk k'
    · rw [if_pos hkk, if_pos hkk]
      exact mapGet_no_match (Bool.not_eq_true _ ▸ hany) hkk v
    · rw [if_neg hkk, if_neg hkk]

/-! ## The dict-comprehension invariant: last occurrence wins -/

theorem lastWithKey_cons (it : Json) (rest : List Json) (k : Json) :
    lastWithKey (it :: rest) k =
      (lastWithKey rest k).or
        (if (match itemKey it with
             | some k2 => pyKeyEq k2 k
             | none => false) then some it else none) := by
  unfold lastWithKey
  rw [List.reverse_cons, List.find?_append]
  congr 1
  by_cases hp : (match itemKey it with
      | some k2 => pyKeyEq k2 k
      | none => false) = true
  · rw [if_pos hp]
    exact @List.find?_cons_of_pos _ _ it [] hp
  · rw [if_neg hp]
    rw [@List.find?_cons_of_neg _ _ it [] hp]
    rfl

theorem foldlM_by_diff (items : List Json) :
    ∀ (d m : List (Json × Json)), items.foldlM by_diff_step d = .ok m →
      ∀ k dflt, mapGet m k dflt = (lastWithKey items k).getD (mapGet d k dflt) := by
  induction items with
  | nil =>
    intro d m h k dflt
    rw [List.foldlM_nil] at h
    injection h with h
    rw [← h]
    rfl
  | cons it rest ih =>
    intro d m h k dflt
    rw [List.foldlM_cons] at h
    obtain ⟨d1, hstep, hrest⟩ := ebind_ok h
    unfold by_diff_step at hstep
    obtain ⟨key, hkey, hstep⟩ := ebind_ok hstep
    cases it with
    | obj ifs =>
      have hkeyv : key = (objLookup ifs "difficulty").getD (.str "All") := by
        simp only [pyGet, Except.ok.injEq] at hkey
        exact hkey.symm
      cases hkc : keyCanon key with
      | none =>
        rw [hkc] at hstep
        exact Except.noConfusion hstep
      | some pk =>
        rw [hkc] at hstep
        injection hstep with hstep
        have hmain := ih d1 m hrest k dflt
        rw [← hstep, mapGet_dictInsert] at hmain
        rw [hmain, lastWithKey_cons]
        have hik : itemKey (Json.obj ifs) =
            some ((objLookup ifs "difficulty").getD (.str "All")) := rfl
        rw [hik, ← hkeyv]
        cases hlast : lastWithKey rest k with
        | some x => rfl
        | none =>
          simp only [Option.or, Option.getD]
          by_cases hk : pyKeyEq key k
          · rw [if_pos hk, if_pos hk]
          · rw [if_neg hk, if_neg hk]
    | null => exact Except.noConfusion hkey
    | bool b => exact Except.noConfusion hkey
    | num q => exact Except.noConfusion hkey
    | str sv => exact Except.noConfusion hkey
    | arr xs => exact Except.noConfusion hkey

/-- C6: for every submission-count list (including ones with duplicate
difficulty keys), in the mapping built by `by_diff` each key is bound to
the last entry of the list carrying that key (`lastWithKey`), and `by_diff`
is deterministic: equal input lists produce equal mappings. -/
theorem C6_last_wins (items : List Json) (m : List (Json × Json))
    (h : by_diff (Json.arr items) = .ok m) :
    (∀ k dflt, mapGet m k dflt = (lastWithKey items k).getD dflt) ∧
    (∀ lst lst' : Json, lst = lst' → by_diff lst = by_diff lst') := by
  constructor
  · intro k dflt
    unfold by_diff at h
    obtain ⟨its, hits, hfold⟩ := ebind_ok h
    have hits' : its = items := by
      simp only [pyIter, Except.ok.injEq] at hits
      exact hits.symm
    subst hits'
    have := foldlM_by_diff its [] m hfold k dflt
    rwa [mapGet_nil] at this
  · intro lst lst' hl
    rw [hl]

/-! ## Witnesses -/

/-- C1 witness: the amended theorem applied to a concrete 200 response
with one error entry. -/
theorem C1_witness :
    fetch_leetcode_user (.response 200 (some c1Body)) =
      .httpError 404 "User not found or LeetCode error" :=
  C1_amended _ (.obj [("message", .str "user does not exist")]) [] rfl

/-- C3 witness: a concrete successful fetch with an all-zero bucket whose
acceptance rate the theorem forces to 0. -/
theorem C3_witness :
    fetch_leetcode_user c3resp = .ok c3result ∧
    ("all", zeroBucket) ∈ c3result.stats ∧
    zeroBucket.total = Json.num 0 ∧
    zeroBucket.acceptanceRate = 0 ∧
    bucketFor [] [] "All" ≠ .error .zeroDivisionError := by
  have hf : fetch_leetcode_user c3resp = .ok c3result := rfl
  have hm : ("all", zeroBucket) ∈ c3result.stats := by simp [c3result]
  exact ⟨hf, hm, rfl, (C3_zero_total c3resp).1 c3result "all" zeroBucket hf hm rfl,
    (C3_zero_total c3resp).2 [] [] "All"⟩

/-- C4 witness: the spec's own scenario (Easy 10/20, 25 submissions): the
easy bucket's rate is round2 (10/20*100), lies in [0, 100], and evaluates
to 50. -/
theorem C4_witness :
    fetch_leetcode_user c4resp = .ok c4result ∧
    ("easy", easyBucket) ∈ c4result.stats ∧
    easyBucket.solved = Json.num 10 ∧ easyBucket.total = Json.num 20 ∧
    easyBucket.acceptanceRate = round2 (10 / 20 * 100) ∧
    0 ≤ easyBucket.acceptanceRate ∧ easyBucket.acceptanceRate ≤ 100 ∧
    easyBucket.acceptanceRate = 50 := by
  have hf : fetch_leetcode_user c4resp = .ok c4result := rfl
  have hm : ("easy", easyBucket) ∈ c4result.stats := by simp [c4result]
  have h4 := C4_acceptance c4resp c4result "easy" easyBucket 10 20 hf hm rfl rfl
    (by norm_num)
  have hb := h4.2 (by norm_num) (by norm_num)
  exact ⟨hf, hm, rfl, rfl, h4.1, hb.1, hb.2, by norm_num [easyBucket, round2, roundHalfEven]⟩

/-- C5 witness: the amended theorem applied to a concrete body whose
matchedUser is null. -/
theorem C5_witness :
    fetch_leetcode_user (.response 200 (some (.obj
      [("data", .obj [("matchedUser", Json.null)])]))) =
      .httpError 404 "User not found" :=
  C5_amended _ (Or.inl rfl)
    (Or.inr ⟨[("matchedUser", Json.null)], rfl, Or.inr rfl⟩)

/-- C6 witness: two entries with duplicate key "Easy"; the built mapping
holds the second (last) entry. -/
theorem C6_witness :
    mapGet [(Json.str "Easy", c6item2)] (Json.str "Easy") (Json.obj []) = c6item2 ∧
    by_diff (Json.arr [c6item1, c6item2]) = .ok [(Json.str "Easy", c6item2)] := by
  have hb : by_diff (Json.arr [c6item1, c6item2]) =
      .ok [(Json.str "Easy", c6item2)] := rfl
  have h := (C6_last_wins [c6item1, c6item2] [(Json.str "Easy", c6item2)] hb).1
    (Json.str "Easy") (Json.obj [])
  exact ⟨h.trans rfl, hb⟩

/-- C7 witness: username "alice" with realName absent yields name
"alice". -/
theorem C7_witness :
    fetch_leetcode_user c7resp = .ok c7result ∧ c7result.name = Json.str "alice" := by
  have hf : fetch_leetcode_user c7resp = .ok c7result := rfl
  exact ⟨hf, C7_name_fallback
    [("data", .obj [("matchedUser", .obj [("username", .str "alice"), ("profile", .obj [])])])]
    [("matchedUser", .obj [("username", .str "alice"), ("profile", .obj [])])]
    [("username", .str "alice"), ("profile", .obj [])]
    [] (Json.str "alice") c7result rfl rfl rfl rfl rfl hf⟩

/-- C8 witness: a concrete profile without websites/skillTags/badges
yields empty arrays for all three. -/
theorem C8_witness :
    fetch_leetcode_user c8resp = .ok c8result ∧
    c8result.websites = Json.arr [] ∧ c8result.skills = Json.arr [] ∧
    c8result.badges = Json.arr [] := by
  have hf : fetch_leetcode_user c8resp = .ok c8result := rfl
  have h := C8_empty_defaults
    [("data", .obj [("matchedUser", .obj
      [("username", .str "bob"), ("profile", .obj [("realName", .str "Bob")])])])]
    [("matchedUser", .obj
      [("username", .str "bob"), ("profile", .obj [("realName", .str "Bob")])])]
    [("username", .str "bob"), ("profile", .obj [("realName", .str "Bob")])]
    [("realName", .str "Bob")] c8result rfl rfl rfl rfl rfl rfl hf
  exact ⟨hf, h⟩

/-- C9 witness: the probe applied to the concrete state in which the
database module is absent. -/
theorem C9_witness :
    ∃ resp, test_database c9env = .ok resp ∧
      resp.backend = "✅ Running" ∧ resp.collections.length ≤ 10 :=
  C9_test_never_fails c9env

/-- C10 witness: an upstream list with the unexpected difficulty name
"Weird" still yields exactly the four lowercase keys in order. -/
theorem C10_witness :
    fetch_leetcode_user c10resp = .ok c10result ∧
    c10result.stats.map Prod.fst = ["all", "easy", "medium", "hard"] := by
  have hf : fetch_leetcode_user c10resp = .ok c10result := rfl
  exact ⟨hf, C10_stats_keys c10resp c10result hf⟩
